import Mathlib

/-
  Verification of the command-routing and action-execution agent of the
  Capstone repository (src/app/src/graph.py), as a shallow embedding in Lean.

  Python strings are modelled as Lean String (lists of unicode scalars);
  side effects (directory creation, artifact writes, SMTP sends) are modelled
  as an explicit effect trace; Python exceptions are modelled with Except;
  the external collaborators (the Colab endpoints, the file system, the SMTP
  transport) are modelled by an Env record supplying each call's outcome.
-/

deriving instance DecidableEq for Except

namespace Capstone

/-- Python str.strip() whitespace set (the ASCII portion; the strings the
    agent handles contain only ASCII whitespace and Korean text). -/
def isPySpace (c : Char) : Bool :=
  c == ' ' || c == '\t' || c == '\n' || c == '\r' || c == '\x0b' || c == '\x0c'

/-- Python str.strip(): remove leading and trailing whitespace. -/
def pyStrip (s : String) : String :=
  ⟨((s.data.dropWhile isPySpace).reverse.dropWhile isPySpace).reverse⟩

/-- Python str.lower() (ASCII portion; the only values lowered by the agent
    are short ASCII tags such as "pdf", "docx", "none"). -/
def pyLower (s : String) : String :=
  ⟨s.data.map Char.toLower⟩

/-- Python str.splitlines(), restricted to the line terminators the agent's
    data contains: a line break is a bare LF, a bare CR, or a CRLF pair; a
    trailing terminator does not produce a final empty line. -/
def splitlinesAux : List Char → List Char → List String
  | [], acc => if acc.isEmpty then [] else [⟨acc.reverse⟩]
  | '\r' :: '\n' :: rest, acc => ⟨acc.reverse⟩ :: splitlinesAux rest []
  | '\r' :: rest, acc => ⟨acc.reverse⟩ :: splitlinesAux rest []
  | '\n' :: rest, acc => ⟨acc.reverse⟩ :: splitlinesAux rest []
  | c :: rest, acc => splitlinesAux rest (c :: acc)

/-- Python text.splitlines() on graph.py line 73. -/
def splitlines (s : String) : List String :=
  splitlinesAux s.data []

/-- Does the pattern occur at the head of the list? -/
def leadsWith : List Char → List Char → Bool
  | [], _ => true
  | _ :: _, [] => false
  | p :: ps, c :: cs => p == c && leadsWith ps cs

/-- Split a character list at the first occurrence of a pattern: returns the
    part before the match and the part after it. -/
def splitFirstOcc (pat : List Char) : List Char → Option (List Char × List Char)
  | [] => if leadsWith pat [] then some ([], []) else none
  | c :: rest =>
    if leadsWith pat (c :: rest) then some ([], List.drop pat.length (c :: rest))
    else
      match splitFirstOcc pat rest with
      | none => none
      | some (pre, post) => some (c :: pre, post)

def thinkOpenTag : List Char := "<think>".data

def thinkCloseTag : List Char := "</think>".data

/-- One Python re.sub(r"<think>.*?</think>", "", text, flags=re.DOTALL) pass,
    written with fuel: each removal consumes at least the 15 characters of the
    two tags, so fuel equal to the input length is always sufficient. -/
def removeThinkFuel : Nat → List Char → List Char
  | 0, s => s
  | Nat.succ fuel, s =>
    match splitFirstOcc thinkOpenTag s with
    | none => s
    | some (pre, rest) =>
      match splitFirstOcc thinkCloseTag rest with
      | none => s
      | some (_, rest2) => pre ++ removeThinkFuel fuel rest2

/-- graph.py line 77: re.sub(r"<think>.*?</think>", "", text, flags=re.DOTALL).
    Each non-greedy match starts at the leftmost remaining open tag and ends at
    the first close tag after it; an open tag with no later close tag matches
    nothing. -/
def removeThinkBlocks (s : String) : String :=
  ⟨removeThinkFuel s.data.length s.data⟩

/-- Hangul-syllable test, graph.py lines 86 and 93: the character class
    [가-힣]. -/
def isHangul (c : Char) : Bool :=
  0xAC00 ≤ c.toNat && c.toNat ≤ 0xD7A3

/-- Number of Hangul-syllable characters of a string (graph.py line 93,
    len(re.findall(...))). -/
def hangulCount (s : String) : Nat :=
  (s.data.filter isHangul).length

/-- Number of non-space characters of a string (graph.py line 95,
    len(stripped.replace(" ", "")) — only the ASCII space is removed). -/
def nonSpaceCount (s : String) : Nat :=
  (s.data.filter (fun c => !(c == ' '))).length

/-- The float comparison korean_count / total_count < 0.2 of graph.py
    line 101, modelled exactly as the rational comparison 5*k < t (for any
    line length a machine could hold, the IEEE double comparison and the exact
    rational comparison agree, since they can only differ when the
    denominator exceeds about 10^16). -/
def ratioBelowThreshold (k t : Nat) : Bool :=
  5 * k < t

/-- The per-line decision of the loop body of _keep_korean_lines
    (graph.py lines 79-104): returns the stripped line when it is kept,
    none when it is skipped. -/
def keepLineResult (line : String) : Option String :=
  let stripped := pyStrip line
  if stripped = "" then none
  else if hangulCount stripped = 0 then none
  else
    let koreanCount := hangulCount stripped
    let totalCount := nonSpaceCount stripped
    if totalCount > 0 then
      if totalCount > 10 ∧ ratioBelowThreshold koreanCount totalCount then none
      else some stripped
    else some stripped

/-- Python "\n".join(...). -/
def joinNewline : List String → String
  | [] => ""
  | [s] => s
  | s :: rest => s ++ "\n" ++ joinNewline rest

/-- _keep_korean_lines (graph.py lines 69-112).  NOTE, faithful to the source:
    line 73 captures lines = text.splitlines() BEFORE line 77 reassigns
    text = re.sub(r"<think>.*?</think>", "", text, ...), so the think-block
    removal does not affect the iterated lines; the reassigned text is only
    what the empty-result fallback at lines 109-110 returns. -/
def keepKoreanLines (text : String) : String :=
  let lines := splitlines text
  let textAfterSub := removeThinkBlocks text
  let keptLines := lines.filterMap keepLineResult
  let result := pyStrip (joinNewline keptLines)
  if result = "" then textAfterSub else result

/-- The JSON body returned by the remote /route_action endpoint, loosely
    typed: every field may be absent (graph.py reads it with data.get). -/
structure RouteResponse where
  action : Option String
  file_type : Option String
  email : Option String
deriving DecidableEq

/-- The normalized classification result of _call_route_action. -/
structure RoutePlan where
  action : String
  file_type : String
  email : String
deriving DecidableEq

/-- Outcome of the POST to /route_action.  transportFail covers every
    exception raised inside the try of graph.py lines 137-143 (caught there);
    parseRaise covers resp.json() yielding a non-dict so that data.get on
    line 146 raises outside that try (escaping _call_route_action). -/
inductive RouteOutcome
  | transportFail (err : String)
  | parseRaise (err : String)
  | ok (data : RouteResponse)
deriving DecidableEq

/-- Outcome of the POST to /agent_chat (graph.py lines 237-243): transport
    failure, or a response whose "response" field is the given string
    (absent field modelled as ""). -/
inductive ChatOutcome
  | transportFail (err : String)
  | ok (response : String)
deriving DecidableEq

/-- One invocation's environment: the outcomes of every external collaborator
    the agent touches (remote endpoints, file system, SMTP credentials and
    transport).  A some value in an Err field means that call raises with the
    given message. -/
structure Env where
  colabBase : String
  routeOutcome : RouteOutcome
  chatOutcome : ChatOutcome
  cwd : String
  mkdirErr : Option String
  writeErr : Option String
  readErr : Option String
  smtpUser : Option String
  smtpPassword : Option String
  sendErr : Option String
deriving DecidableEq

/-- The defensive normalization of the classifier response,
    graph.py lines 146-160. -/
def normalizeRouteData (data : RouteResponse) : RoutePlan :=
  let action0 := data.action.getD "none"
  let action :=
    if action0 = "save_file" ∨ action0 = "send_email" ∨ action0 = "none" then action0
    else "none"
  let ft0 := data.file_type.getD "docx"
  let ft :=
    if ft0 = "pdf" ∨ ft0 = "docx" then ft0
    else if action ≠ "none" then "docx" else "none"
  { action := action, file_type := ft, email := pyStrip (data.email.getD "") }

/-- _call_route_action (graph.py lines 118-160).  Returns Except.error only
    when resp.json() was not a dict, so that data.get raises after the inner
    try has already succeeded. -/
def callRouteAction (colabBase : String) (outcome : RouteOutcome) :
    Except String RoutePlan :=
  if colabBase = "" then Except.ok { action := "none", file_type := "none", email := "" }
  else
    match outcome with
    | RouteOutcome.transportFail _ =>
      Except.ok { action := "none", file_type := "docx", email := "" }
    | RouteOutcome.parseRaise e => Except.error e
    | RouteOutcome.ok data => Except.ok (normalizeRouteData data)

/-- What classify_node writes into the graph state (graph.py lines 389-412):
    always action / file_type / email, plus result_message on the error
    path. -/
structure ClassifyOut where
  action : String
  file_type : String
  email : String
  result_message : Option String
deriving DecidableEq

/-- classify_node (graph.py lines 389-412).  command and bhc_di_ko are sent
    to the remote classifier; the classifier's answer is supplied by the
    environment. -/
def classifyNode (env : Env) (command bhcDiKo : String) : ClassifyOut :=
  match callRouteAction env.colabBase env.routeOutcome with
  | Except.error e =>
    { action := "none", file_type := "none", email := "",
      result_message := some ("요청 분석 중 오류가 발생했습니다: " ++ toString e) }
  | Except.ok r =>
    { action := r.action, file_type := r.file_type, email := r.email,
      result_message := none }

/-- _call_agent_chat_for_reply (graph.py lines 163-251).  The four prompt
    templates (chosen by action) are data sent to the remote collaborator,
    whose answer is supplied by the environment, so the template text does
    not affect the result and is elided.  The transport-failure message is
    returned directly (before the Korean-line filter); a successful response
    is trimmed, defaulted when empty, and then filtered. -/
def callAgentChatForReply (env : Env) (command bhcDiKo action fileType email : String) :
    String :=
  if env.colabBase = "" then
    "서버 설정(COLAB_API_BASE)에 문제가 있어서 답변을 생성할 수 없습니다. 관리자에게 문의해 주세요."
  else
    match env.chatOutcome with
    | ChatOutcome.transportFail e => "답변 생성 중 오류가 발생했습니다: " ++ e
    | ChatOutcome.ok response =>
      let reply := pyStrip response
      let reply :=
        if reply = "" then "답변 생성에 문제가 발생했습니다. 다시 한 번 시도해 주세요." else reply
      keepKoreanLines reply

/-- The observable side effects of one invocation, in program order. -/
inductive Eff
  | mkdirGenerated
  | writeArtifact (path : String)
  | readArtifact (path : String)
  | smtpSend (recipient : String) (filename : String)
deriving DecidableEq

/-- The five keys chat_and_act_node always returns (graph.py lines 430-436
    and 500-506); the final graph state restricted to them. -/
structure AgentResult where
  action : String
  file_type : String
  email : String
  file_path : String
  result_message : String
deriving DecidableEq

/-- Python falsiness of an optional credential string: os.getenv yields None
    when unset, and `not s` is also true for "". -/
def isFalsyCred : Option String → Bool
  | none => true
  | some s => s == ""

/-- send_email_with_attachment (graph.py lines 340-370): raises when the
    SMTP credentials are falsy, otherwise attempts the SMTP session (the
    smtpSend effect) which raises on login or send failure. -/
def sendEmailWithAttachment (env : Env) (toEmail _subject _body filename : String) :
    List Eff × Except String Unit :=
  if isFalsyCred env.smtpUser || isFalsyCred env.smtpPassword then
    ([], Except.error "SMTP_USER / SMTP_PASSWORD 환경변수가 설정되어 있지 않습니다.")
  else
    match env.sendErr with
    | some e => ([Eff.smtpSend toEmail filename], Except.error e)
    | none => ([Eff.smtpSend toEmail filename], Except.ok ())

/-- Python `s or dflt` for strings: dflt when s is empty, else s. -/
def orDefault (s dflt : String) : String :=
  if s = "" then dflt else s

/-- The guard condition of graph.py line 425:
    action in ["save_file", "send_email"] and not bhc_di_ko.strip(). -/
def guardTriggered (action bhcDiKo : String) : Bool :=
  (action == "save_file" || action == "send_email") && (pyStrip bhcDiKo == "")

/-- The fixed notice of graph.py lines 426-429. -/
def guardNotice : String :=
  "아직 생성된 BHC/DI 출력물이 없습니다.\n왼쪽 패널에서 먼저 퇴원 요약을 생성하신 후 다시 요청해 주세요."

def fileCreatedNote (name : String) : String :=
  "\n\n(✅ 파일이 생성되었습니다: " ++ name ++ ")"

def noAddressWarning : String :=
  "\n\n(⚠️ 이메일 주소를 인식하지 못해 실제 전송은 하지 못했습니다.)"

def emailFailWarning (e : String) : String :=
  "\n\n(⚠️ 이메일 전송 중 오류가 발생했습니다: " ++ e ++ ")"

def emailSentNote (email : String) : String :=
  "\n\n(📧 " ++ email ++ " 주소로 파일을 전송했습니다.)"

/-- os.path.basename for the slash-separated paths the agent builds. -/
def basenameAux : List Char → List Char → List Char
  | [], acc => acc.reverse
  | '/' :: rest, _ => basenameAux rest []
  | c :: rest, acc => basenameAux rest (c :: acc)

def basename (p : String) : String :=
  ⟨basenameAux p.data []⟩

/-- chat_and_act_node (graph.py lines 415-506).  Returns the effect trace and
    either the result dict or the uncaught exception.  Faithful points:
    the guard returns before any side effect; prev_message (line 422) is read
    but never used; the reply call cannot raise (all its failure paths are
    handled inside _call_agent_chat_for_reply); os.makedirs(base_dir) and the
    create_pdf_file / create_docx_file calls are NOT inside any try, so their
    failures escape; only the open/read and send_email_with_attachment calls
    sit in the try of lines 484-497. -/
def chatAndActNode (env : Env) (command bhcDiKo : String) (cls : ClassifyOut) :
    List Eff × Except String AgentResult :=
  let action := orDefault cls.action "none"
  let fileType := pyLower (orDefault cls.file_type "none")
  let email := cls.email
  if guardTriggered action bhcDiKo then
    ([], Except.ok { action := "none", file_type := "none", email := "",
                     file_path := "", result_message := guardNotice })
  else
    let reply := callAgentChatForReply env command bhcDiKo action fileType email
    match env.mkdirErr with
    | some e => ([Eff.mkdirGenerated], Except.error e)
    | none =>
      if action = "save_file" then
        let ft := if fileType = "pdf" then "pdf" else "docx"
        let path := env.cwd ++ "/generated/" ++
          (if fileType = "pdf" then "discharge_summary.pdf" else "discharge_summary.docx")
        match env.writeErr with
        | some e => ([Eff.mkdirGenerated, Eff.writeArtifact path], Except.error e)
        | none =>
          ([Eff.mkdirGenerated, Eff.writeArtifact path],
           Except.ok { action := action, file_type := ft, email := email, file_path := path,
                       result_message := reply ++ fileCreatedNote (basename path) })
      else if action = "send_email" then
        let ft := if fileType = "pdf" then "pdf" else "docx"
        let path := env.cwd ++ "/generated/" ++
          (if fileType = "pdf" then "discharge_summary_email.pdf"
           else "discharge_summary_email.docx")
        match env.writeErr with
        | some e => ([Eff.mkdirGenerated, Eff.writeArtifact path], Except.error e)
        | none =>
          if email = "" then
            ([Eff.mkdirGenerated, Eff.writeArtifact path],
             Except.ok { action := action, file_type := ft, email := email, file_path := path,
                         result_message := reply ++ noAddressWarning })
          else
            match env.readErr with
            | some e =>
              ([Eff.mkdirGenerated, Eff.writeArtifact path, Eff.readArtifact path],
               Except.ok { action := action, file_type := ft, email := email, file_path := path,
                           result_message := reply ++ emailFailWarning e })
            | none =>
              match sendEmailWithAttachment env email "퇴원 요약 및 지침서"
                  "첨부된 퇴원 요약/지침서를 확인해 주세요." (basename path) with
              | (sendEffs, Except.error e) =>
                ([Eff.mkdirGenerated, Eff.writeArtifact path, Eff.readArtifact path] ++ sendEffs,
                 Except.ok { action := action, file_type := ft, email := email, file_path := path,
                             result_message := reply ++ emailFailWarning e })
              | (sendEffs, Except.ok _) =>
                ([Eff.mkdirGenerated, Eff.writeArtifact path, Eff.readArtifact path] ++ sendEffs,
                 Except.ok { action := action, file_type := ft, email := email, file_path := path,
                             result_message := reply ++ emailSentNote email })
      else
        ([Eff.mkdirGenerated],
         Except.ok { action := action, file_type := fileType, email := email,
                     file_path := "", result_message := reply })

/-- The compiled graph of get_graph() (graph.py lines 378-521): the fixed
    edge sequence START → classify → chat_and_act → END, invoked with the
    caller's three inputs.  bhc_di_en is part of the state but never read by
    either node. -/
def runAgent (env : Env) (command bhcDiKo bhcDiEn : String) :
    List Eff × Except String AgentResult :=
  chatAndActNode env command bhcDiKo (classifyNode env command bhcDiKo)

/-- Substring test: does pat occur contiguously inside s? -/
def containsSub (pat s : String) : Bool :=
  (splitFirstOcc pat.data s.data).isSome

/-- Environment of a save_file turn whose artifact write fails. -/
def envWriteFail : Env :=
  { colabBase := "http://colab",
    routeOutcome := RouteOutcome.ok
      { action := some "save_file", file_type := some "docx", email := none },
    chatOutcome := ChatOutcome.ok "네, 파일을 생성합니다.",
    cwd := "/w", mkdirErr := none, writeErr := some "디스크 쓰기 실패",
    readErr := none, smtpUser := none, smtpPassword := none, sendErr := none }

/-- Environment of a pure-chat turn with all collaborators healthy. -/
def envPureChat : Env :=
  { colabBase := "http://colab",
    routeOutcome := RouteOutcome.ok
      { action := some "none", file_type := none, email := none },
    chatOutcome := ChatOutcome.ok "안녕하세요!",
    cwd := "/w", mkdirErr := none, writeErr := none,
    readErr := none, smtpUser := none, smtpPassword := none, sendErr := none }

/-- Environment whose classifier requests save_file (used against a blank
    summary). -/
def envSaveRequest : Env :=
  { colabBase := "http://colab",
    routeOutcome := RouteOutcome.ok
      { action := some "save_file", file_type := some "pdf", email := none },
    chatOutcome := ChatOutcome.ok "네", cwd := "/w", mkdirErr := none,
    writeErr := none, readErr := none, smtpUser := none, smtpPassword := none,
    sendErr := none }

/-- Environment of a send_email turn whose classifier reports no address. -/
def envNoAddress : Env :=
  { colabBase := "http://colab",
    routeOutcome := RouteOutcome.ok
      { action := some "send_email", file_type := some "pdf", email := some "" },
    chatOutcome := ChatOutcome.ok "네, 전송하겠습니다.",
    cwd := "/w", mkdirErr := none, writeErr := none, readErr := none,
    smtpUser := none, smtpPassword := none, sendErr := none }

/-- Environment of a send_email turn with an address but no SMTP credentials
    in the execution environment. -/
def envDispatchFail : Env :=
  { colabBase := "http://colab",
    routeOutcome := RouteOutcome.ok
      { action := some "send_email", file_type := some "docx", email := some "a@b.c" },
    chatOutcome := ChatOutcome.ok "네, 전송하겠습니다.",
    cwd := "/w", mkdirErr := none, writeErr := none, readErr := none,
    smtpUser := none, smtpPassword := none, sendErr := none }

/-- Environment whose classification response is a non-dict JSON value, so
    _call_route_action raises past its inner try. -/
def envParseFail : Env :=
  { colabBase := "http://colab", routeOutcome := RouteOutcome.parseRaise "boom",
    chatOutcome := ChatOutcome.ok "안녕하세요!",
    cwd := "/w", mkdirErr := none, writeErr := none, readErr := none,
    smtpUser := none, smtpPassword := none, sendErr := none }

/-- A second healthy pure-chat environment. -/
def envPureChatB : Env :=
  { colabBase := "http://colab",
    routeOutcome := RouteOutcome.ok
      { action := some "none", file_type := some "docx", email := none },
    chatOutcome := ChatOutcome.ok "흉부외과 안내입니다.",
    cwd := "/w", mkdirErr := none, writeErr := none, readErr := none,
    smtpUser := none, smtpPassword := none, sendErr := none }

/-- Discriminator for a successful (non-raising) invocation result. -/
def exceptIsOk : Except String AgentResult → Bool
  | Except.ok _ => true
  | Except.error _ => false

/- ================= helper lemmas ================= -/

lemma exists_ok_iff_isOk (x : Except String AgentResult) :
    (∃ r, x = Except.ok r) ↔ exceptIsOk x = true := by
  cases x <;> simp [exceptIsOk]

lemma leadsWith_self (p : List Char) : leadsWith p p = true := by
  induction p with
  | nil => rfl
  | cons c ps ih => simp [leadsWith, ih]

lemma splitFirstOcc_append_self (p : List Char) :
    ∀ s : List Char, (splitFirstOcc p (s ++ p)).isSome = true := by
  intro s
  induction s with
  | nil =>
    cases p with
    | nil => rfl
    | cons c ps => simp [splitFirstOcc, leadsWith_self]
  | cons c cs ih =>
    rw [List.cons_append]
    by_cases h : leadsWith p (c :: (cs ++ p)) = true
    · simp [splitFirstOcc, h]
    · simp only [splitFirstOcc, h, if_neg]
      cases hsp : splitFirstOcc p (cs ++ p) with
      | none => rw [hsp] at ih; simp at ih
      | some pr =>
        cases pr with
        | mk pre post => simp [h, hsp]

lemma data_append (a b : String) : (a ++ b).data = a.data ++ b.data := by
  cases a
  cases b
  rfl

lemma containsSub_append_self (pat pre : String) :
    containsSub pat (pre ++ pat) = true := by
  unfold containsSub
  rw [data_append]
  exact splitFirstOcc_append_self pat.data pre.data

lemma append_ne_empty_of_right (a b : String) (hb : b ≠ "") : a ++ b ≠ "" := by
  intro h
  apply hb
  have hdata : a.data ++ b.data = [] := by
    rw [← data_append]
    exact congrArg String.data h
  have hb2 : b.data = [] := (List.append_eq_nil.mp hdata).2
  cases b
  exact congrArg String.mk hb2

lemma filter_length_mono (p q : Char → Bool) (h : ∀ c, p c = true → q c = true) :
    ∀ l : List Char, (l.filter p).length ≤ (l.filter q).length := by
  intro l
  induction l with
  | nil => simp
  | cons c cs ih =>
    by_cases hp : p c = true
    · rw [List.filter_cons_of_pos hp, List.filter_cons_of_pos (h c hp)]
      simpa using ih
    · rw [List.filter_cons_of_neg (by simpa using hp)]
      cases hq : q c
      · rw [List.filter_cons_of_neg (by simp [hq])]
        exact ih
      · rw [List.filter_cons_of_pos (by simp [hq])]
        exact Nat.le_succ_of_le ih

lemma hangulCount_le_nonSpaceCount (s : String) :
    hangulCount s ≤ nonSpaceCount s := by
  apply filter_length_mono
  intro c hc
  cases h : c == ' ' with
  | false => rfl
  | true =>
    have hce : c = ' ' := eq_of_beq h
    rw [hce] at hc
    exact absurd hc (by decide)

/- ================= the claims ================= -/

/-- C4 (code_bug demonstration): on the input consisting of a single
    `think` reasoning block containing one Korean line, the filter returns
    that inner line — a line lying inside the marker-delimited block appears
    in the output, although the block removal applied to the same input
    yields the empty string.  The source computes the line list before
    reassigning the de-blocked text, so the removal never affects the kept
    lines. -/
theorem think_block_line_survives :
    keepKoreanLines ("<think>" ++ "\n" ++ "계획을 세웁니다" ++ "\n" ++ "</think>") =
      "계획을 세웁니다" ∧
    removeThinkBlocks ("<think>" ++ "\n" ++ "계획을 세웁니다" ++ "\n" ++ "</think>") = "" :=
  ⟨by decide, by decide⟩

/-- C5 (code_bug demonstration): the non-empty input "<think>plan</think>"
    is filtered to the empty string — the empty-result fallback returns the
    think-stripped text rather than the original input, so a non-empty input
    can yield an empty output. -/
theorem fallback_empty_on_think_input :
    keepKoreanLines "<think>plan</think>" = "" ∧
    ("<think>plan</think>" : String) ≠ "" :=
  ⟨by decide, by decide⟩

/-- C6: a non-blank line is dropped iff it contains no Hangul syllable, or
    its non-space length exceeds 10 with a Hangul ratio below 0.2; a
    non-blank line with at most 10 non-space characters and at least one
    Hangul syllable is always kept; and the two-line English/Korean sample
    keeps only the Korean line. -/
theorem line_filter_rule :
    (∀ line : String, pyStrip line ≠ "" →
      (keepLineResult line = none ↔
        (hangulCount (pyStrip line) = 0 ∨
         (10 < nonSpaceCount (pyStrip line) ∧
          5 * hangulCount (pyStrip line) < nonSpaceCount (pyStrip line)))))
    ∧ (∀ line : String, pyStrip line ≠ "" → nonSpaceCount (pyStrip line) ≤ 10 →
        1 ≤ hangulCount (pyStrip line) → keepLineResult line = some (pyStrip line))
    ∧ keepKoreanLines ("The patient is stable." ++ "\n" ++ "환자는 안정적입니다.") =
        "환자는 안정적입니다." := by
  refine ⟨?_, ?_, by decide⟩
  · intro line hne
    unfold keepLineResult
    rw [if_neg hne]
    by_cases h0 : hangulCount (pyStrip line) = 0
    · rw [if_pos h0]
      simp [h0]
    · rw [if_neg h0]
      have hpos : 0 < nonSpaceCount (pyStrip line) :=
        Nat.lt_of_lt_of_le (Nat.pos_of_ne_zero h0) (hangulCount_le_nonSpaceCount _)
      rw [if_pos hpos]
      by_cases hc : nonSpaceCount (pyStrip line) > 10 ∧
          ratioBelowThreshold (hangulCount (pyStrip line)) (nonSpaceCount (pyStrip line)) = true
      · rw [if_pos hc]
        simp only [ratioBelowThreshold, decide_eq_true_eq] at hc
        simp [h0, hc]
      · rw [if_neg hc]
        simp only [ratioBelowThreshold, decide_eq_true_eq] at hc
        simp only [not_and_or] at hc
        constructor
        · intro h
          exact absurd h (by simp)
        · intro h
          rcases h with h | ⟨h1, h2⟩
          · exact absurd h h0
          · rcases hc with hc | hc
            · exact absurd h1 hc
            · exact absurd h2 hc
  · intro line hne hshort hhan
    unfold keepLineResult
    rw [if_neg hne]
    rw [if_neg (by omega)]
    have hpos : 0 < nonSpaceCount (pyStrip line) :=
      Nat.lt_of_lt_of_le (by omega) (hangulCount_le_nonSpaceCount _)
    rw [if_pos hpos]
    rw [if_neg (by intro hcon; omega)]

/-- C6 witness: a Hangul-free English line is dropped, a short Korean line
    is kept. -/
theorem line_filter_rule_witness :
    keepLineResult "Okay, the user said 안녕 okay" = none ∧
    keepLineResult "수술입니다." = some "수술입니다." := by
  constructor
  · exact (line_filter_rule.1 "Okay, the user said 안녕 okay" (by decide)).mpr (by decide)
  · exact line_filter_rule.2.1 "수술입니다." (by decide) (by decide) (by decide)

/-- C3: classifier normalization — an unrecognized action coerces to none;
    an unrecognized file format coerces to docx when the normalized action is
    save_file or send_email and to none when it is none; the email is the
    trimmed reported value (empty when absent). -/
theorem classifier_normalization (data : RouteResponse) :
    ((data.action.getD "none" ≠ "none" ∧ data.action.getD "none" ≠ "save_file" ∧
      data.action.getD "none" ≠ "send_email") →
      (normalizeRouteData data).action = "none")
    ∧ ((data.file_type.getD "docx" ≠ "pdf" ∧ data.file_type.getD "docx" ≠ "docx") →
       ((((normalizeRouteData data).action = "save_file" ∨
          (normalizeRouteData data).action = "send_email") →
         (normalizeRouteData data).file_type = "docx")
        ∧ ((normalizeRouteData data).action = "none" →
           (normalizeRouteData data).file_type = "none")))
    ∧ (normalizeRouteData data).email = pyStrip (data.email.getD "") := by
  unfold normalizeRouteData
  refine ⟨?_, ?_, rfl⟩
  · rintro ⟨h1, h2, h3⟩
    simp only
    rw [if_neg]
    rintro (h | h | h) <;> contradiction
  · rintro ⟨hf1, hf2⟩
    simp only
    constructor
    · intro hA
      split_ifs with c1 c2 c3 <;> simp_all
    · intro hA
      split_ifs at hA ⊢ <;> simp_all

/-- C3 witness: an out-of-schema response normalizes to action none, format
    none, trimmed email. -/
theorem classifier_normalization_witness :
    (normalizeRouteData
      { action := some "explode", file_type := some "xlsx", email := some " a@b.c " }).action
        = "none" ∧
    (normalizeRouteData
      { action := some "explode", file_type := some "xlsx", email := some " a@b.c " }).file_type
        = "none" ∧
    (normalizeRouteData
      { action := some "explode", file_type := some "xlsx", email := some " a@b.c " }).email
        = pyStrip " a@b.c " := by
  have h := classifier_normalization
    { action := some "explode", file_type := some "xlsx", email := some " a@b.c " }
  refine ⟨h.1 (by decide), ?_, h.2.2⟩
  exact (h.2.1 (by decide)).2 (h.1 (by decide))

/-- C2: when the summary is blank and the classified action is save_file or
    send_email, the run returns the forced none/none/empty result with the
    fixed notice, performing no side effect at all (empty effect trace, so
    in particular no artifact write). -/
theorem guard_blocks_blank_summary (env : Env) (command bhcDiKo bhcDiEn : String)
    (hko : pyStrip bhcDiKo = "")
    (hact : (classifyNode env command bhcDiKo).action = "save_file" ∨
            (classifyNode env command bhcDiKo).action = "send_email") :
    runAgent env command bhcDiKo bhcDiEn =
      ([], Except.ok { action := "none", file_type := "none", email := "",
                       file_path := "", result_message := guardNotice }) := by
  unfold runAgent chatAndActNode
  have hne : (classifyNode env command bhcDiKo).action ≠ "" := by
    rcases hact with h | h <;> rw [h] <;> decide
  have hdef : orDefault (classifyNode env command bhcDiKo).action "none" =
      (classifyNode env command bhcDiKo).action := by
    unfold orDefault
    rw [if_neg hne]
  have hguard : guardTriggered
      (orDefault (classifyNode env command bhcDiKo).action "none") bhcDiKo = true := by
    rw [hdef]
    unfold guardTriggered
    rcases hact with h | h <;> rw [h] <;> simp [hko]
  simp only [hguard, eq_self_iff_true, if_true]

/-- C2 witness: a save_file request against a whitespace-only summary is
    forced to the guard result. -/
theorem guard_blocks_blank_summary_witness :
    runAgent envSaveRequest "저장해줘" "   " "" =
      ([], Except.ok { action := "none", file_type := "none", email := "",
                       file_path := "", result_message := guardNotice }) :=
  guard_blocks_blank_summary envSaveRequest "저장해줘" "   " ""
    (by decide) (Or.inl (by decide))

/-- C1 counterexample: with a healthy classifier requesting save_file, a
    non-blank summary, and a failing artifact write, the run ends in an
    uncaught exception — the write failure is not caught and not folded into
    the message, so run() does let an exception escape. -/
theorem artifact_write_failure_escapes :
    (runAgent envWriteFail "파일로 저장해줘" "환자 요약입니다." "").2 =
      Except.error "디스크 쓰기 실패" := by
  decide

/-- C1 (amended): whenever the output-directory creation and the artifact
    write succeed, run() returns a populated AgentResult for every outcome of
    the remaining collaborators (classification transport or parse failure,
    reply-generation failure, artifact-read failure, missing SMTP
    credentials, authentication or send failure); artifact-write IO failures
    are the one class that escapes. -/
theorem run_total_when_artifact_io_succeeds (env : Env)
    (command bhcDiKo bhcDiEn : String)
    (hm : env.mkdirErr = none) (hw : env.writeErr = none) :
    ∃ r, (runAgent env command bhcDiKo bhcDiEn).2 = Except.ok r := by
  rw [exists_ok_iff_isOk]
  unfold runAgent chatAndActNode sendEmailWithAttachment
  simp only [hm, hw]
  repeat' split
  all_goals rfl

/-- C1 witness: a pure-chat turn with healthy collaborators returns a
    result. -/
theorem run_total_when_artifact_io_succeeds_witness :
    ∃ r, (runAgent envPureChat "오늘 날씨 어때?" "" "").2 = Except.ok r :=
  run_total_when_artifact_io_succeeds envPureChat "오늘 날씨 어때?" "" "" rfl rfl

/-- C7: a send_email turn with a non-blank summary and an empty classified
    address performs no SMTP dispatch, still writes the artifact at the
    distinct email artifact path (so file_path is non-empty and names a
    written artifact), and appends the no-send warning to the message. -/
theorem email_without_address (env : Env) (command bhcDiKo bhcDiEn : String)
    (hact : (classifyNode env command bhcDiKo).action = "send_email")
    (hmail : (classifyNode env command bhcDiKo).email = "")
    (hko : pyStrip bhcDiKo ≠ "")
    (hm : env.mkdirErr = none) (hw : env.writeErr = none) :
    ∃ r, (runAgent env command bhcDiKo bhcDiEn).2 = Except.ok r ∧
      r.file_path ≠ "" ∧
      (r.file_path = env.cwd ++ "/generated/" ++ "discharge_summary_email.pdf" ∨
       r.file_path = env.cwd ++ "/generated/" ++ "discharge_summary_email.docx") ∧
      Eff.writeArtifact r.file_path ∈ (runAgent env command bhcDiKo bhcDiEn).1 ∧
      (∀ t fl, Eff.smtpSend t fl ∉ (runAgent env command bhcDiKo bhcDiEn).1) ∧
      containsSub noAddressWarning r.result_message = true := by
  unfold runAgent
  generalize hcl : classifyNode env command bhcDiKo = cls
  rw [hcl] at hact hmail
  obtain ⟨a, f, em, rm⟩ := cls
  simp only at hact hmail
  subst hact
  subst hmail
  have hg : guardTriggered "send_email" bhcDiKo = false := by
    unfold guardTriggered
    have hb2 : (pyStrip bhcDiKo == "") = false := by
      cases hb : pyStrip bhcDiKo == ""
      · rfl
      · exact absurd (eq_of_beq hb) hko
    rw [hb2]
    rfl
  unfold chatAndActNode
  dsimp only
  have ho : orDefault "send_email" "none" = "send_email" := rfl
  rw [ho, hg]
  simp only [Bool.false_eq_true, if_false, hm, hw]
  rw [if_neg (show ¬(("send_email" : String) = "save_file") by decide)]
  simp only [if_true]
  by_cases hf : pyLower (orDefault f "none") = "pdf"
  · simp only [if_pos hf]
    refine ⟨_, rfl, ?_, Or.inl rfl, by simp, ?_, containsSub_append_self _ _⟩
    · exact append_ne_empty_of_right _ _ (by decide)
    · intro t fl h
      simp at h
  · simp only [if_neg hf]
    refine ⟨_, rfl, ?_, Or.inr rfl, by simp, ?_, containsSub_append_self _ _⟩
    · exact append_ne_empty_of_right _ _ (by decide)
    · intro t fl h
      simp at h

/-- C7 witness: the concrete address-less send_email turn. -/
theorem email_without_address_witness :
    ∃ r, (runAgent envNoAddress "이메일로 보내줘" "환자 요약" "").2 = Except.ok r ∧
      r.file_path ≠ "" ∧
      (r.file_path = envNoAddress.cwd ++ "/generated/" ++ "discharge_summary_email.pdf" ∨
       r.file_path = envNoAddress.cwd ++ "/generated/" ++ "discharge_summary_email.docx") ∧
      Eff.writeArtifact r.file_path ∈ (runAgent envNoAddress "이메일로 보내줘" "환자 요약" "").1 ∧
      (∀ t fl, Eff.smtpSend t fl ∉ (runAgent envNoAddress "이메일로 보내줘" "환자 요약" "").1) ∧
      containsSub noAddressWarning r.result_message = true :=
  email_without_address envNoAddress "이메일로 보내줘" "환자 요약" ""
    (by decide) (by decide) (by decide) rfl rfl

/-- C8: a send_email turn with an address whose dispatch fails — missing
    credentials or a transport/authentication failure — completes with a
    populated result: the failure is downgraded to a warning (with the error
    detail) appended to the message, and the already-written artifact is
    retained and still named by file_path. -/
theorem email_dispatch_failure_downgraded (env : Env)
    (command bhcDiKo bhcDiEn : String)
    (hact : (classifyNode env command bhcDiKo).action = "send_email")
    (hmail : (classifyNode env command bhcDiKo).email ≠ "")
    (hko : pyStrip bhcDiKo ≠ "")
    (hm : env.mkdirErr = none) (hw : env.writeErr = none) (hr : env.readErr = none)
    (hfail : isFalsyCred env.smtpUser = true ∨ isFalsyCred env.smtpPassword = true ∨
             (∃ e0, env.sendErr = some e0)) :
    ∃ r e, (runAgent env command bhcDiKo bhcDiEn).2 = Except.ok r ∧
      r.file_path ≠ "" ∧
      (r.file_path = env.cwd ++ "/generated/" ++ "discharge_summary_email.pdf" ∨
       r.file_path = env.cwd ++ "/generated/" ++ "discharge_summary_email.docx") ∧
      Eff.writeArtifact r.file_path ∈ (runAgent env command bhcDiKo bhcDiEn).1 ∧
      containsSub (emailFailWarning e) r.result_message = true := by
  unfold runAgent
  generalize hcl : classifyNode env command bhcDiKo = cls
  rw [hcl] at hact hmail
  obtain ⟨a, f, em, rm⟩ := cls
  simp only at hact hmail
  subst hact
  have hg : guardTriggered "send_email" bhcDiKo = false := by
    unfold guardTriggered
    have hb2 : (pyStrip bhcDiKo == "") = false := by
      cases hb : pyStrip bhcDiKo == ""
      · rfl
      · exact absurd (eq_of_beq hb) hko
    rw [hb2]
    rfl
  unfold chatAndActNode
  dsimp only
  have ho : orDefault "send_email" "none" = "send_email" := rfl
  rw [ho, hg]
  simp only [Bool.false_eq_true, if_false, hm, hw, hr]
  rw [if_neg (show ¬(("send_email" : String) = "save_file") by decide)]
  simp only [if_true]
  rw [if_neg hmail]
  unfold sendEmailWithAttachment
  cases hcred : (isFalsyCred env.smtpUser || isFalsyCred env.smtpPassword) with
  | true =>
    simp only [hcred, if_true]
    by_cases hf : pyLower (orDefault f "none") = "pdf"
    · simp only [if_pos hf]
      refine ⟨_, _, rfl, ?_, Or.inl rfl, by simp, containsSub_append_self _ _⟩
      exact append_ne_empty_of_right _ _ (by decide)
    · simp only [if_neg hf]
      refine ⟨_, _, rfl, ?_, Or.inr rfl, by simp, containsSub_append_self _ _⟩
      exact append_ne_empty_of_right _ _ (by decide)
  | false =>
    have hse : ∃ e0, env.sendErr = some e0 := by
      rcases hfail with h | h | h
      · rw [Bool.or_eq_false_iff] at hcred
        exact absurd h (by rw [hcred.1]; decide)
      · rw [Bool.or_eq_false_iff] at hcred
        exact absurd h (by rw [hcred.2]; decide)
      · exact h
    obtain ⟨e0, hse⟩ := hse
    simp only [hcred, Bool.false_eq_true, if_false, hse]
    by_cases hf : pyLower (orDefault f "none") = "pdf"
    · simp only [if_pos hf]
      refine ⟨_, e0, rfl, ?_, Or.inl rfl, by simp, containsSub_append_self _ _⟩
      exact append_ne_empty_of_right _ _ (by decide)
    · simp only [if_neg hf]
      refine ⟨_, e0, rfl, ?_, Or.inr rfl, by simp, containsSub_append_self _ _⟩
      exact append_ne_empty_of_right _ _ (by decide)

/-- C8 witness: a send_email turn with an address and no SMTP credentials in
    the environment. -/
theorem email_dispatch_failure_downgraded_witness :
    ∃ r e, (runAgent envDispatchFail "이메일로 보내줘" "환자 요약" "").2 = Except.ok r ∧
      r.file_path ≠ "" ∧
      (r.file_path = envDispatchFail.cwd ++ "/generated/" ++ "discharge_summary_email.pdf" ∨
       r.file_path = envDispatchFail.cwd ++ "/generated/" ++ "discharge_summary_email.docx") ∧
      Eff.writeArtifact r.file_path ∈ (runAgent envDispatchFail "이메일로 보내줘" "환자 요약" "").1 ∧
      containsSub (emailFailWarning e) r.result_message = true :=
  email_dispatch_failure_downgraded envDispatchFail "이메일로 보내줘" "환자 요약" ""
    (by decide) (by decide) (by decide) rfl rfl rfl (Or.inl (by decide))

/-- C9 counterexample: with the classifier raising on a malformed (non-dict)
    response, the classify node does record action none and a localized error
    message — but the pipeline does not short-circuit: the execution node
    still runs (the output directory is created) and the final message is the
    composed chat reply, not the classification error text. -/
theorem classification_error_overwritten :
    runAgent envParseFail "오늘 날씨 어때?" "" "" =
      ([Eff.mkdirGenerated],
       Except.ok { action := "none", file_type := "none", email := "", file_path := "",
                   result_message := "안녕하세요!" }) ∧
    (classifyNode envParseFail "오늘 날씨 어때?" "").result_message =
      some "요청 분석 중 오류가 발생했습니다: boom" ∧
    ("안녕하세요!" : String) ≠ "요청 분석 중 오류가 발생했습니다: boom" := by
  exact ⟨by decide, by decide, by decide⟩

/-- C9 (amended): when classification fails internally, the classify node
    stores action none with a localized error message, but the graph's fixed
    edge still runs the reply/execution node, which ignores the stored
    message, creates the output directory, and returns the composed chat
    reply as the final message; no artifact is produced because the action is
    none. -/
theorem classification_failure_degrades_to_chat (env : Env)
    (command bhcDiKo bhcDiEn e : String)
    (hbase : env.colabBase ≠ "")
    (hroute : env.routeOutcome = RouteOutcome.parseRaise e)
    (hm : env.mkdirErr = none) :
    runAgent env command bhcDiKo bhcDiEn =
      ([Eff.mkdirGenerated],
       Except.ok { action := "none", file_type := "none", email := "", file_path := "",
                   result_message := callAgentChatForReply env command bhcDiKo "none" "none" "" }) := by
  have hcls : classifyNode env command bhcDiKo =
      { action := "none", file_type := "none", email := "",
        result_message := some ("요청 분석 중 오류가 발생했습니다: " ++ e) } := by
    unfold classifyNode callRouteAction
    rw [if_neg hbase, hroute]
    rfl
  unfold runAgent
  rw [hcls]
  unfold chatAndActNode
  have ho : orDefault ("none" : String) "none" = "none" := rfl
  have hg : guardTriggered "none" bhcDiKo = false := rfl
  simp only [ho, hg, Bool.false_eq_true, if_false, hm]
  have hpl : pyLower "none" = "none" := rfl
  simp only [hpl]
  rfl

/-- C9 amended witness: the concrete parse-failure turn. -/
theorem classification_failure_degrades_to_chat_witness :
    runAgent envParseFail "명령입니다" "요약" "" =
      ([Eff.mkdirGenerated],
       Except.ok { action := "none", file_type := "none", email := "", file_path := "",
                   result_message :=
                     callAgentChatForReply envParseFail "명령입니다" "요약" "none" "none" "" }) :=
  classification_failure_degrades_to_chat envParseFail "명령입니다" "요약" "" "boom"
    (by decide) rfl rfl

/-- C10: on every invocation that reaches the execution step (the guard does
    not fire), the very first side effect of the run is the creation of the
    generated output directory — before any branch on the action, hence also
    on pure-chat turns that produce no artifact. -/
theorem mkdir_before_branch (env : Env) (command bhcDiKo bhcDiEn : String)
    (hguard : guardTriggered
      (orDefault (classifyNode env command bhcDiKo).action "none") bhcDiKo = false) :
    (runAgent env command bhcDiKo bhcDiEn).1.head? = some Eff.mkdirGenerated := by
  unfold runAgent chatAndActNode sendEmailWithAttachment
  simp only [hguard, Bool.false_eq_true, if_false]
  repeat' split
  all_goals rfl

/-- C10 witness: a pure-chat turn still creates the output directory as its
    first (and only) side effect. -/
theorem mkdir_before_branch_witness :
    (runAgent envPureChatB "안녕" "" "").1.head? = some Eff.mkdirGenerated :=
  mkdir_before_branch envPureChatB "안녕" "" "" (by decide)

end Capstone
